import Mathlib

/-!
Verification of the movement/AI core of the nextbot-fps-prototype repository.

The JavaScript sources are shallowly embedded into Lean: JS numbers are
modelled as exact rationals, class fields become structure fields, and each
method becomes a state-passing function.  Calls to the ambient clock
(Date.now) become explicit time parameters.  The setTimeout handle stored in
BhopController.resetTimer is modelled as the scheduled fire time
(an Option value: none when no timer is pending).
-/

namespace BhopController

/-- Jump quality classification used for visual feedback
(field lastJumpQuality of BhopController, values NONE, GOOD, PERFECT). -/
inductive Quality where
  | NONE : Quality
  | GOOD : Quality
  | PERFECT : Quality
deriving DecidableEq, Repr

/-- Analytics record bhopStats of BhopController. -/
structure Stats where
  totalJumps : ℕ
  successfulBhops : ℕ
  perfectBhops : ℕ
  longestChain : ℕ
  averageTiming : ℚ
  totalTiming : ℚ
deriving DecidableEq, Repr

/-- Mutable fields of BhopController (src/unnamed/part_009, constructor).
The resetTimer field holds the scheduled fire time of the pending
setTimeout callback, or none. -/
structure State where
  lastJumpTime : ℚ
  lastLandTime : ℚ
  isBhopping : Bool
  chainCount : ℕ
  perfectJumps : ℕ
  comboMeter : ℚ
  currentBoost : ℚ
  lastChainBrokenTime : ℚ
  resetTimer : Option ℚ
  lastJumpQuality : Quality
  bhopStats : Stats
  useStaminaSystem : Bool
  stamina : ℚ
deriving DecidableEq, Repr

def BHOP_WINDOW : ℚ := 450
def PERFECT_BHOP_WINDOW : ℚ := 150
def BASE_BOOST : ℚ := 6/5
def MAX_BOOST : ℚ := 5/2
def PERFECT_BOOST_MULTIPLIER : ℚ := 23/20
def MAX_CHAIN_COUNT : ℕ := 10
def momentumLossRate : ℚ := 17/20
def momentumPreservationTime : ℚ := 800
def staminaPerJump : ℚ := 5
def staminaRegenRate : ℚ := 10
def airAccelerationBoost : ℚ := 13/10

/-- Initial state built by the BhopController constructor. -/
def init : State where
  lastJumpTime := 0
  lastLandTime := 0
  isBhopping := false
  chainCount := 0
  perfectJumps := 0
  comboMeter := 0
  currentBoost := BASE_BOOST
  lastChainBrokenTime := 0
  resetTimer := none
  lastJumpQuality := Quality.NONE
  bhopStats := ⟨0, 0, 0, 0, 0, 0⟩
  useStaminaSystem := false
  stamina := 100

/-- Embedding of BhopController.handleJump(jumpTime)
(src/unnamed/part_009 lines 115-200).  Returns the updated state and the
boolean result (whether a successful bhop was performed). -/
def handleJump (jumpTime : ℚ) (s : State) : State × Bool :=
  let s0 : State :=
    { s with lastJumpTime := jumpTime
             bhopStats := { s.bhopStats with totalJumps := s.bhopStats.totalJumps + 1 }
             resetTimer := none }
  let timeSinceLastLand : ℚ := jumpTime - s0.lastLandTime
  if s0.lastLandTime > 0 ∧ timeSinceLastLand ≤ BHOP_WINDOW then
    let isPerfectTiming : Bool := timeSinceLastLand ≤ PERFECT_BHOP_WINDOW
    let quality : Quality := if isPerfectTiming then Quality.PERFECT else Quality.GOOD
    let chainCount : ℕ := min MAX_CHAIN_COUNT (s0.chainCount + 1)
    let perfectJumps : ℕ := if isPerfectTiming then s0.perfectJumps + 1 else s0.perfectJumps
    let st1 : Stats := { s0.bhopStats with successfulBhops := s0.bhopStats.successfulBhops + 1 }
    let st2 : Stats := if isPerfectTiming then { st1 with perfectBhops := st1.perfectBhops + 1 } else st1
    let st3 : Stats := if chainCount > st2.longestChain then { st2 with longestChain := chainCount } else st2
    let st4 : Stats := { st3 with totalTiming := st3.totalTiming + timeSinceLastLand }
    let st5 : Stats := { st4 with averageTiming := st4.totalTiming / (st4.successfulBhops : ℚ) }
    let comboMeter : ℚ := min 100 (s0.comboMeter + (if isPerfectTiming then 15 else 10))
    let baseBoostFactor : ℚ :=
      BASE_BOOST + ((MAX_BOOST - BASE_BOOST) * ((chainCount : ℚ) / (MAX_CHAIN_COUNT : ℚ)))
    let baseBoostFactor2 : ℚ :=
      if isPerfectTiming then baseBoostFactor * PERFECT_BOOST_MULTIPLIER else baseBoostFactor
    let comboBonus : ℚ := 1 + comboMeter / 1000
    let boost1 : ℚ := baseBoostFactor2 * comboBonus
    let stamina : ℚ := if s0.useStaminaSystem then max 0 (s0.stamina - staminaPerJump) else s0.stamina
    let boost2 : ℚ := if s0.useStaminaSystem ∧ stamina ≤ 0 then min boost1 (3/2) else boost1
    ({ s0 with lastJumpQuality := quality
               chainCount := chainCount
               perfectJumps := perfectJumps
               bhopStats := st5
               comboMeter := comboMeter
               currentBoost := boost2
               stamina := stamina
               isBhopping := true }, true)
  else
    let broken : ℚ × ℚ :=
      if s0.chainCount > 0 then
        let preservationFactor : ℚ := min (4/5) (1/2 + (s0.chainCount : ℚ) / 20)
        (jumpTime, BASE_BOOST + ((s0.currentBoost - BASE_BOOST) * momentumLossRate * preservationFactor))
      else
        (s0.lastChainBrokenTime, s0.currentBoost)
    ({ s0 with lastJumpQuality := Quality.NONE
               isBhopping := false
               chainCount := 0
               perfectJumps := 0
               comboMeter := max 0 (s0.comboMeter - 30)
               lastChainBrokenTime := broken.1
               currentBoost := broken.2 }, false)

/-- Embedding of BhopController.handleLanding(landTime)
(src/unnamed/part_009 lines 206-216).  It records the landing time and
schedules the asynchronous reset callback for landTime + BHOP_WINDOW + 100;
no other field is touched. -/
def handleLanding (landTime : ℚ) (s : State) : State :=
  { s with lastLandTime := landTime
           resetTimer := some (landTime + BHOP_WINDOW + 100) }

/-- Embedding of BhopController.resetBhop (src/unnamed/part_009 lines
231-246).  The two Date.now() reads become the parameter now. -/
def resetBhop (now : ℚ) (s : State) : State :=
  let lastChainBrokenTime : ℚ := if s.isBhopping then now else s.lastChainBrokenTime
  let s1 : State :=
    { s with lastChainBrokenTime := lastChainBrokenTime
             isBhopping := false
             chainCount := 0
             perfectJumps := 0
             comboMeter := max 0 (s.comboMeter - 20) }
  if now - s1.lastChainBrokenTime > momentumPreservationTime then
    { s1 with currentBoost := BASE_BOOST }
  else
    s1

/-- Embedding of BhopController.update(delta)
(src/unnamed/part_009 lines 252-275).  The Date.now() read in the momentum
preservation logic becomes the parameter now. -/
def update (delta now : ℚ) (s : State) : State :=
  let stamina : ℚ :=
    if s.useStaminaSystem ∧ s.isBhopping = false then
      min 100 (s.stamina + staminaRegenRate * delta)
    else s.stamina
  let comboMeter : ℚ :=
    if s.comboMeter > 0 ∧ s.isBhopping = false then
      max 0 (s.comboMeter - 10 * delta)
    else s.comboMeter
  let currentBoost : ℚ :=
    if s.isBhopping = false ∧ s.currentBoost > BASE_BOOST ∧
        now - s.lastChainBrokenTime > momentumPreservationTime then
      max BASE_BOOST (s.currentBoost - ((s.currentBoost - BASE_BOOST) * (1/2) * delta))
    else s.currentBoost
  { s with stamina := stamina
           comboMeter := comboMeter
           currentBoost := currentBoost }

/-- Embedding of BhopController.getAirAccelerationMultiplier
(src/unnamed/part_009 lines 281-288). -/
def getAirAccelerationMultiplier (s : State) : ℚ :=
  if s.isBhopping = false then 1
  else airAccelerationBoost * (1 + s.comboMeter / 200)

/-- States reachable from the constructor state by any sequence of
handleJump, handleLanding, resetBhop and update(delta) with delta ≥ 0
(the clock arguments are unconstrained). -/
inductive Reachable : State → Prop where
  | init : Reachable init
  | jump (s : State) (t : ℚ) : Reachable s → Reachable (handleJump t s).1
  | land (s : State) (t : ℚ) : Reachable s → Reachable (handleLanding t s)
  | reset (s : State) (t : ℚ) : Reachable s → Reachable (resetBhop t s)
  | step (s : State) (delta now : ℚ) : 0 ≤ delta → Reachable s →
      Reachable (update delta now s)

/-- Invariant claimed for the chain state: comboMeter stays in [0, 100]
and currentBoost stays at or above BASE_BOOST. -/
def Inv (s : State) : Prop :=
  0 ≤ s.comboMeter ∧ s.comboMeter ≤ 100 ∧ BASE_BOOST ≤ s.currentBoost

end BhopController

/-- Vector of three rational coordinates, modelling THREE.Vector3. -/
structure V3 where
  x : ℚ
  y : ℚ
  z : ℚ
deriving DecidableEq, Repr

namespace Player

/-- Movement state values of Player.moveState. -/
inductive MoveState where
  | WALKING : MoveState
  | RUNNING : MoveState
  | SPRINTING : MoveState
  | SLIDING : MoveState
deriving DecidableEq, Repr

def HEIGHT : ℚ := 2
def JUMP_FORCE : ℚ := 12
def WALK_SPEED : ℚ := 6
def RUN_SPEED : ℚ := 12
def SPRINT_SPEED : ℚ := 20
def MAX_SPEED : ℚ := 45
def ACCELERATION : ℚ := 80
def DECELERATION : ℚ := 60
def SPRINT_ACCELERATION : ℚ := 120
def WALK_ACCELERATION : ℚ := 40
def AIR_ACCELERATION : ℚ := 30
def AIR_DECELERATION : ℚ := 10
def DEFAULT_FOV : ℚ := 75
def RUNNING_FOV : ℚ := 85
def SPRINTING_FOV : ℚ := 95
def WALKING_FOV : ℚ := 65
def airControl : ℚ := 4/5
def SLIDE_DURATION : ℚ := 3/5
def SLIDE_SPEED_BOOST : ℚ := 13/10
def SLIDE_COOLDOWN : ℚ := 1
def COLLISION_SLIDE_FACTOR : ℚ := 4/5
def interpFactor : ℚ := 1/4

/-- Mutable fields of the Player entity (src/js/entities/Player.js,
constructor and init) that the jump, slide and speed logic touches.
The posY field is yawObject.position.y, velY is velocity.y. -/
structure State where
  moveForward : Bool
  moveBackward : Bool
  moveLeft : Bool
  moveRight : Bool
  isSprinting : Bool
  isWalking : Bool
  canJump : Bool
  isJumping : Bool
  isSliding : Bool
  moveState : MoveState
  currentSpeed : ℚ
  targetSpeed : ℚ
  currentAcceleration : ℚ
  targetFOV : ℚ
  slideTimer : ℚ
  slideCooldownTimer : ℚ
  posY : ℚ
  velY : ℚ
  bhop : BhopController.State
deriving DecidableEq, Repr

/-- Initial player state from the Player constructor. -/
def init : State where
  moveForward := false
  moveBackward := false
  moveLeft := false
  moveRight := false
  isSprinting := false
  isWalking := false
  canJump := false
  isJumping := false
  isSliding := false
  moveState := MoveState.RUNNING
  currentSpeed := 0
  targetSpeed := RUN_SPEED
  currentAcceleration := ACCELERATION
  targetFOV := DEFAULT_FOV
  slideTimer := 0
  slideCooldownTimer := 0
  posY := HEIGHT
  velY := 0
  bhop := BhopController.init

/-- Embedding of Player.updateMovementState
(src/js/entities/Player.js lines 141-176). -/
def updateMovementState (p : State) : State :=
  if p.isSliding then
    { p with moveState := MoveState.SLIDING
             currentAcceleration := ACCELERATION
             targetFOV := SPRINTING_FOV + 10 }
  else
    let p1 : State :=
      if p.isSprinting then
        { p with targetSpeed := SPRINT_SPEED
                 moveState := MoveState.SPRINTING
                 currentAcceleration := SPRINT_ACCELERATION
                 targetFOV := SPRINTING_FOV }
      else if p.isWalking then
        { p with targetSpeed := WALK_SPEED
                 moveState := MoveState.WALKING
                 currentAcceleration := WALK_ACCELERATION
                 targetFOV := WALKING_FOV }
      else
        { p with targetSpeed := RUN_SPEED
                 moveState := MoveState.RUNNING
                 currentAcceleration := ACCELERATION
                 targetFOV := RUNNING_FOV }
    if p1.bhop.isBhopping then
      { p1 with targetSpeed := min (p1.targetSpeed * p1.bhop.currentBoost) MAX_SPEED
                targetFOV := p1.targetFOV +
                  (p1.bhop.chainCount : ℚ) * (3/2) * (p1.currentSpeed / RUN_SPEED) }
    else p1

/-- Embedding of Player.jump (src/js/entities/Player.js lines 182-203).
The Date.now() read becomes the parameter now. -/
def jump (now : ℚ) (p : State) : State × Bool :=
  if p.isSliding then (p, false)
  else if p.canJump = false then (p, false)
  else
    let p1 : State := { p with velY := JUMP_FORCE, canJump := false, isJumping := true }
    let jr := BhopController.handleJump now p1.bhop
    let p2 : State := { p1 with bhop := jr.1 }
    (updateMovementState p2, jr.2)

/-- Embedding of Player.startSlide (src/js/entities/Player.js
lines 209-229). -/
def startSlide (p : State) : State × Bool :=
  if p.canJump = false ∨ p.slideCooldownTimer > 0 ∨ p.isSliding then (p, false)
  else if p.currentSpeed < RUN_SPEED * (4/5) then (p, false)
  else
    let p1 : State := { p with isSliding := true
                               slideTimer := SLIDE_DURATION
                               posY := HEIGHT * (3/5)
                               currentSpeed := p.currentSpeed * SLIDE_SPEED_BOOST }
    (updateMovementState p1, true)

/-- Embedding of Player.updateSpeed (src/js/entities/Player.js
lines 355-388). -/
def updateSpeed (delta : ℚ) (p : State) : State :=
  let targetSpeed : ℚ :=
    if p.moveForward ∨ p.moveBackward ∨ p.moveLeft ∨ p.moveRight then p.targetSpeed else 0
  let effA : ℚ := if p.canJump then p.currentAcceleration else AIR_ACCELERATION
  let effD : ℚ := if p.canJump then DECELERATION else AIR_DECELERATION
  let effA2 : ℚ :=
    if p.canJump = false ∧ p.bhop.isBhopping then
      effA * BhopController.getAirAccelerationMultiplier p.bhop
    else effA
  let effA3 : ℚ :=
    if p.canJump = false ∧ p.bhop.isBhopping = false then effA2 * airControl else effA2
  if p.currentSpeed < targetSpeed then
    { p with currentSpeed := min targetSpeed (p.currentSpeed + effA3 * delta) }
  else if p.currentSpeed > targetSpeed then
    if p.isSliding then
      { p with currentSpeed := max targetSpeed (p.currentSpeed - (effD * (3/10)) * delta) }
    else
      { p with currentSpeed := max targetSpeed (p.currentSpeed - effD * delta) }
  else p

/-- Normalization of an axis-aligned vector component, following
THREE.Vector3.normalize, which divides by (length or 1): the zero vector
stays zero, otherwise the component becomes its sign. -/
def axisNorm (d : ℚ) : ℚ := if d = 0 then 0 else if d > 0 then 1 else -1

/-- Embedding of Player.handleSlideAlongWalls (src/js/entities/Player.js
lines 533-589).  The castCollisionRays method (a raycast against scene
obstacles) is passed as the oracle collide origin direction distance; the
function returns the new (x, z) position together with the updated
velocity components (velX, velZ).  The X-only and Z-only probe vectors and
their lengths are computed exactly as in the source. -/
def handleSlideAlongWalls (collide : V3 → V3 → ℚ → Bool)
    (currentPos targetPos moveDir : V3) (velX velZ : ℚ) : V3 × ℚ × ℚ :=
  let dx : ℚ := targetPos.x - currentPos.x
  let dz : ℚ := targetPos.z - currentPos.z
  let xOnlyCollision : Bool := collide currentPos ⟨axisNorm dx, 0, 0⟩ |dx|
  let zOnlyCollision : Bool := collide currentPos ⟨0, 0, axisNorm dz⟩ |dz|
  let newX : ℚ := if xOnlyCollision = false then targetPos.x else currentPos.x
  let velZ1 : ℚ :=
    if xOnlyCollision = false ∧ |moveDir.z| > 1/10 then velZ * COLLISION_SLIDE_FACTOR else velZ
  let newZ : ℚ := if zOnlyCollision = false then targetPos.z else currentPos.z
  let velX1 : ℚ :=
    if zOnlyCollision = false ∧ |moveDir.x| > 1/10 then velX * COLLISION_SLIDE_FACTOR else velX
  (⟨currentPos.x + (newX - currentPos.x) * interpFactor,
    currentPos.y,
    currentPos.z + (newZ - currentPos.z) * interpFactor⟩, velX1, velZ1)

end Player

namespace EntityManager

def maxDifficultyLevel : ℚ := 5/2
def difficultyIncreaseRate : ℚ := 1/20

/-- Difficulty-related fields of EntityManager (src/unnamed/part_007,
constructor lines 20-29). -/
structure DiffState where
  difficultyLevel : ℚ
  playerBhopSkill : ℚ
  playerDeaths : ℕ
  difficultyScalingEnabled : Bool
deriving DecidableEq, Repr

/-- Initial difficulty state from the EntityManager constructor. -/
def diffInit : DiffState where
  difficultyLevel := 1
  playerBhopSkill := 0
  playerDeaths := 0
  difficultyScalingEnabled := true

/-- Embedding of EntityManager.updateDifficulty (src/unnamed/part_007
lines 211-239).  The bhop statistics are read from the player's
BhopController; the per-frame increment uses 1/60 as in the source. -/
def updateDifficulty (stats : BhopController.Stats) (d : DiffState) : DiffState :=
  if d.difficultyScalingEnabled = false then d
  else
    let successRate : ℚ :=
      if stats.totalJumps > 0 then (stats.successfulBhops : ℚ) / (stats.totalJumps : ℚ) else 0
    let perfectRate : ℚ :=
      if stats.successfulBhops > 0 then
        (stats.perfectBhops : ℚ) / (stats.successfulBhops : ℚ)
      else 0
    let timingFactor : ℚ :=
      if stats.averageTiming > 0 then
        BhopController.PERFECT_BHOP_WINDOW / stats.averageTiming
      else 0
    let skill : ℚ :=
      min 1 (successRate * (1/2) + perfectRate * (3/10) + timingFactor * (1/5))
    let targetDifficulty : ℚ := 1 + skill * (3/2)
    let level : ℚ :=
      if d.difficultyLevel < targetDifficulty then
        min maxDifficultyLevel (d.difficultyLevel + difficultyIncreaseRate * (1/60))
      else d.difficultyLevel
    { d with playerBhopSkill := skill, difficultyLevel := level }

/-- Embedding of EntityManager.handlePlayerDamage (src/unnamed/part_007
lines 282-288). -/
def handlePlayerDamage (d : DiffState) : DiffState :=
  { d with playerDeaths := d.playerDeaths + 1,
           difficultyLevel := max 1 (d.difficultyLevel * (9/10)) }

/-- Embedding of the difficulty scaling applied to a freshly created
enemy in EntityManager.createEnemy (src/unnamed/part_007 line 77):
scaledSpeedMultiplier = enemyTypeData.speedMultiplier * difficultyLevel. -/
def scaledSpeedMultiplier (typeMultiplier difficultyLevel : ℚ) : ℚ :=
  typeMultiplier * difficultyLevel

end EntityManager

namespace Enemy

def BASE_SPEED : ℚ := 5

/-- Embedding of the per-step dynamic speed adjustment in Enemy.update
(src/js/entities/Enemy.js lines 171-174): the modifier grows with the
player's current speed, capped at 30, up to 50 percent extra. -/
def speedModifier (playerSpeed : ℚ) : ℚ := 1 + (min playerSpeed 30) / 30 * (1/2)

/-- Effective per-step speed of an enemy: this.speed = BASE_SPEED *
speedMultiplier * speedModifier, where speedMultiplier was set at creation
time by EntityManager.createEnemy. -/
def effectiveSpeed (speedMultiplier playerSpeed : ℚ) : ℚ :=
  BASE_SPEED * speedMultiplier * speedModifier playerSpeed

end Enemy

namespace PathfindingService

def gridSize : ℚ := 5
def gridExtent : ℚ := 200

/-- Embedding of PathfindingService.worldToGrid (src/unnamed/part_004
lines 281-289): floor to integer cell indices with the grid centered on
the world.  Note that findPath computes grid coordinates for start and
end but never uses them: no bounds or occupancy check exists. -/
def worldToGrid (p : V3) : ℤ × ℤ :=
  (⌊(p.x + gridExtent / 2) / gridSize⌋, ⌊(p.z + gridExtent / 2) / gridSize⌋)

/-- Static axis-aligned obstacle, given by its mesh position (the box
center, used as obstacle.position in the source) and its half-extents. -/
structure Obstacle where
  center : V3
  half : V3
deriving DecidableEq, Repr

/-- Containment of a point in an obstacle's axis-aligned box. -/
def containsPoint (o : Obstacle) (p : V3) : Bool :=
  decide ((o.center.x - o.half.x ≤ p.x ∧ p.x ≤ o.center.x + o.half.x) ∧
    (o.center.y - o.half.y ≤ p.y ∧ p.y ≤ o.center.y + o.half.y) ∧
    (o.center.z - o.half.z ≤ p.z ∧ p.z ≤ o.center.z + o.half.z))

/-- Parameter interval (clipped to [0, 1]) in which the point
a + t(b − a) lies inside the slab [lo, hi] on one axis; none when the
axis never meets the slab within the segment. -/
def axisInterval (a d lo hi : ℚ) : Option (ℚ × ℚ) :=
  if d = 0 then (if lo ≤ a ∧ a ≤ hi then some (0, 1) else none)
  else
    let t1 : ℚ := (lo - a) / d
    let t2 : ℚ := (hi - a) / d
    let tl : ℚ := max (min t1 t2) 0
    let th : ℚ := min (max t1 t2) 1
    if tl ≤ th then some (tl, th) else none

/-- Intersection of two parameter intervals. -/
def meet : Option (ℚ × ℚ) → Option (ℚ × ℚ) → Option (ℚ × ℚ)
  | none, _ => none
  | _, none => none
  | some (a1, b1), some (a2, b2) =>
      let lo : ℚ := max a1 a2
      let hi : ℚ := min b1 b2
      if lo ≤ hi then some (lo, hi) else none

/-- Entry parameter of the segment a → b into an obstacle's box,
modelling THREE.Raycaster.intersectObjects against a box mesh with the
default front-side material: back faces are culled, so a ray whose origin
lies inside the box records no hit; otherwise the hit is the entry point
of the segment into the box, and comparing hit distances is equivalent to
comparing segment parameters. -/
def segHit (a b : V3) (o : Obstacle) : Option ℚ :=
  if containsPoint o a then none
  else
    match meet (meet (axisInterval a.x (b.x - a.x) (o.center.x - o.half.x) (o.center.x + o.half.x))
                     (axisInterval a.y (b.y - a.y) (o.center.y - o.half.y) (o.center.y + o.half.y)))
               (axisInterval a.z (b.z - a.z) (o.center.z - o.half.z) (o.center.z + o.half.z)) with
    | none => none
    | some (tl, _) => some tl

/-- Nearest obstacle hit along the segment a → b with its entry
parameter, modelling intersections[0] of the sorted raycast result. -/
def nearestHit (obs : List Obstacle) (a b : V3) : Option (Obstacle × ℚ) :=
  obs.foldl (fun best o =>
    match segHit a b o with
    | none => best
    | some t =>
        match best with
        | none => some (o, t)
        | some (o0, t0) => if t < t0 then some (o, t) else some (o0, t0)) none

/-- Embedding of PathfindingService.hasDirectPath (src/unnamed/part_004
lines 144-157): true when the raycast from start toward end (range
limited to their distance) records no obstacle intersection. -/
def hasDirectPath (obs : List Obstacle) (a b : V3) : Bool :=
  (nearestHit obs a b).isNone

/-- Squared distance; THREE's distanceTo comparisons between nonnegative
distances are equivalent to comparisons of squared distances. -/
def dist2 (a b : V3) : ℚ :=
  (a.x - b.x) ^ 2 + (a.y - b.y) ^ 2 + (a.z - b.z) ^ 2

/-- Embedding of PathfindingService.findPath together with its
generateSimplifiedPath helper (src/unnamed/part_004 lines 115-136 and
165-218).  The unit parameter stands for THREE.Vector3.normalize (a
floating-point operation with no exact rational counterpart; no verified
statement depends on its value).  The source's generateSimplifiedPath
re-raycasts the same segment findPath just tested, so the nearestHit
match below reflects intersections[0] of that second raycast; the branch
returning [endPos] when the recheck finds no obstacle mirrors lines
212-215.  The fuel argument makes the source's unbounded recursion
well-founded: fuel 0 (empty result) marks a recursion budget exhausted,
where the JavaScript would recurse without bound. -/
def findPath (unit : V3 → V3 → V3) (obs : List Obstacle) :
    ℕ → V3 → V3 → List V3
  | 0, _, _ => []
  | fuel + 1, startPos, endPos =>
    if hasDirectPath obs startPos endPos then [endPos]
    else
      match nearestHit obs startPos endPos with
      | none => [endPos]
      | some (ob, _) =>
          let dir : V3 := unit startPos endPos
          let perp : V3 := ⟨-dir.z, 0, dir.x⟩
          let leftSide : V3 :=
            ⟨ob.center.x + perp.x * 5, ob.center.y + perp.y * 5, ob.center.z + perp.z * 5⟩
          let rightSide : V3 :=
            ⟨ob.center.x - perp.x * 5, ob.center.y - perp.y * 5, ob.center.z - perp.z * 5⟩
          let waypoint : V3 :=
            if dist2 leftSide endPos < dist2 rightSide endPos then leftSide else rightSide
          waypoint :: findPath unit obs fuel waypoint endPos

end PathfindingService

namespace BhopController

/-- Characterization of the successful-bhop branch of handleJump for
perfect timing: when a landing has been recorded (lastLandTime > 0) and the
jump comes within PERFECT_BHOP_WINDOW of it, the quality, chain count,
combo meter and boost are computed as in lines 126-179 of the source. -/
lemma handleJump_perfect_branch (s : State) (t : ℚ)
    (h1 : 0 < s.lastLandTime) (h2 : t - s.lastLandTime ≤ PERFECT_BHOP_WINDOW)
    (hss : s.useStaminaSystem = false) :
    (handleJump t s).1.lastJumpQuality = Quality.PERFECT ∧
    (handleJump t s).1.chainCount = min MAX_CHAIN_COUNT (s.chainCount + 1) ∧
    (handleJump t s).1.comboMeter = min 100 (s.comboMeter + 15) ∧
    (handleJump t s).1.currentBoost =
      (BASE_BOOST + ((MAX_BOOST - BASE_BOOST) *
          ((min MAX_CHAIN_COUNT (s.chainCount + 1) : ℕ) / (MAX_CHAIN_COUNT : ℚ)))) *
        PERFECT_BOOST_MULTIPLIER * (1 + min 100 (s.comboMeter + 15) / 1000) ∧
    (handleJump t s).1.useStaminaSystem = false ∧
    (handleJump t s).1.isBhopping = true := by
  have h2' : t - s.lastLandTime ≤ BHOP_WINDOW := by
    unfold BHOP_WINDOW
    unfold PERFECT_BHOP_WINDOW at h2
    linarith
  simp [handleJump, h1, h2, h2', hss]

/-- Fields of handleLanding: only lastLandTime and the scheduled reset
timer change. -/
lemma handleLanding_fields (s : State) (t : ℚ) :
    (handleLanding t s).lastLandTime = t ∧
    (handleLanding t s).resetTimer = some (t + BHOP_WINDOW + 100) ∧
    (handleLanding t s).chainCount = s.chainCount ∧
    (handleLanding t s).comboMeter = s.comboMeter ∧
    (handleLanding t s).currentBoost = s.currentBoost ∧
    (handleLanding t s).isBhopping = s.isBhopping ∧
    (handleLanding t s).lastJumpQuality = s.lastJumpQuality ∧
    (handleLanding t s).useStaminaSystem = s.useStaminaSystem := by
  exact ⟨rfl, rfl, rfl, rfl, rfl, rfl, rfl, rfl⟩

end BhopController

namespace BhopController

set_option maxHeartbeats 1000000 in
/-- handleJump preserves the combo-meter range and the boost floor. -/
lemma inv_handleJump (t : ℚ) (s : State) (h : Inv s) : Inv (handleJump t s).1 := by
  obtain ⟨h0, h1, h2⟩ := h
  unfold BASE_BOOST at h2
  have hx : (0:ℚ) ≤ ((min 10 (s.chainCount + 1) : ℕ) : ℚ) := Nat.cast_nonneg _
  have hm15 : (0:ℚ) ≤ min (100:ℚ) (s.comboMeter + 15) := le_min (by norm_num) (by linarith)
  have hm10 : (0:ℚ) ≤ min (100:ℚ) (s.comboMeter + 10) := le_min (by norm_num) (by linarith)
  have hpf : (0:ℚ) ≤ min (4/5 : ℚ) (1/2 + (s.chainCount:ℚ)/20) :=
    le_min (by norm_num) (by positivity)
  unfold Inv handleJump BASE_BOOST MAX_BOOST PERFECT_BOOST_MULTIPLIER MAX_CHAIN_COUNT
    momentumLossRate staminaPerJump
  dsimp only
  split_ifs <;> (try dsimp only) <;> refine ⟨?_, ?_, ?_⟩ <;>
    first
      | exact le_max_left _ _
      | exact min_le_left _ _
      | (apply max_le <;> linarith)
      | (apply le_min <;> first
          | linarith
          | nlinarith [hx, hm15, hm10, hpf, h2, mul_nonneg hx hm15, mul_nonneg hx hm10,
              mul_nonneg (sub_nonneg.mpr h2) hpf])
      | exact h2
      | nlinarith [hx, hm15, hm10, hpf, h2, mul_nonneg hx hm15, mul_nonneg hx hm10,
          mul_nonneg (sub_nonneg.mpr h2) hpf]

/-- handleLanding changes neither comboMeter nor currentBoost. -/
lemma inv_handleLanding (t : ℚ) (s : State) (h : Inv s) : Inv (handleLanding t s) := h

/-- resetBhop preserves the combo-meter range and the boost floor. -/
lemma inv_resetBhop (t : ℚ) (s : State) (h : Inv s) : Inv (resetBhop t s) := by
  obtain ⟨h0, h1, h2⟩ := h
  unfold BASE_BOOST at h2
  unfold Inv resetBhop BASE_BOOST momentumPreservationTime
  dsimp only
  split_ifs <;>
    refine ⟨le_max_left _ _, max_le (by norm_num) (by linarith), ?_⟩ <;> linarith

/-- update with a nonnegative delta preserves the combo-meter range and
the boost floor. -/
lemma inv_update (delta now : ℚ) (s : State) (hd : 0 ≤ delta) (h : Inv s) :
    Inv (update delta now s) := by
  obtain ⟨h0, h1, h2⟩ := h
  unfold BASE_BOOST at h2
  unfold Inv update BASE_BOOST momentumPreservationTime staminaRegenRate
  dsimp only
  split_ifs <;>
    refine ⟨?_, ?_, ?_⟩ <;>
    first
      | exact le_max_left _ _
      | (apply max_le (by norm_num) (by nlinarith))
      | linarith

end BhopController

/-- C1 counterexample: from the constructor state, lastLandTime is 0
(unset), so a jump at time 150 has Δ = 150 − 0 ≤ PERFECT_BHOP_WINDOW, yet
handleJump takes the chain-break branch (its guard requires
lastLandTime > 0) and the resulting quality is NONE, not PERFECT. -/
theorem bhop_perfect_window_quality_cex :
    (150 : ℚ) - BhopController.init.lastLandTime ≤ BhopController.PERFECT_BHOP_WINDOW ∧
    (BhopController.handleJump 150 BhopController.init).1.lastJumpQuality ≠
      BhopController.Quality.PERFECT ∧
    (BhopController.handleJump 150 BhopController.init).1.lastJumpQuality =
      BhopController.Quality.NONE := by
  refine ⟨by norm_num [BhopController.init, BhopController.PERFECT_BHOP_WINDOW], ?_, ?_⟩ <;>
    simp [BhopController.handleJump, BhopController.init, BhopController.BHOP_WINDOW]

/-- C1 (amended): provided a previous landing has been recorded
(lastLandTime > 0), every handleJump call with Δ ≤ PERFECT_BHOP_WINDOW
yields quality PERFECT; and across consecutive perfect-timed jumps
(jump, landing at a positive time, jump) the resulting currentBoost
strictly increases while chainCount stays below MAX_CHAIN_COUNT
(the hypothesis chainCount ≤ 8 keeps both chain counts under the cap;
the combo meter is nonnegative and the stamina system is off, as in every
state reachable from the constructor). -/
theorem bhop_perfect_window_quality_and_boost_increase
    (s : BhopController.State) (t1 l1 t2 : ℚ)
    (hmc : 0 ≤ s.comboMeter) (hcc : s.chainCount ≤ 8)
    (hss : s.useStaminaSystem = false)
    (h1 : 0 < s.lastLandTime) (h2 : t1 - s.lastLandTime ≤ BhopController.PERFECT_BHOP_WINDOW)
    (h3 : 0 < l1) (h4 : t2 - l1 ≤ BhopController.PERFECT_BHOP_WINDOW) :
    (BhopController.handleJump t1 s).1.lastJumpQuality = BhopController.Quality.PERFECT ∧
    (BhopController.handleJump t2 (BhopController.handleLanding l1
        (BhopController.handleJump t1 s).1)).1.lastJumpQuality =
      BhopController.Quality.PERFECT ∧
    (BhopController.handleJump t1 s).1.chainCount = s.chainCount + 1 ∧
    (BhopController.handleJump t2 (BhopController.handleLanding l1
        (BhopController.handleJump t1 s).1)).1.chainCount = s.chainCount + 2 ∧
    (BhopController.handleJump t1 s).1.currentBoost <
      (BhopController.handleJump t2 (BhopController.handleLanding l1
        (BhopController.handleJump t1 s).1)).1.currentBoost := by
  obtain ⟨hq1, hc1, hm1, hb1, hs1, _⟩ :=
    BhopController.handleJump_perfect_branch s t1 h1 h2 hss
  set s1 := (BhopController.handleJump t1 s).1 with hs1def
  set s2 := BhopController.handleLanding l1 s1 with hs2def
  obtain ⟨hl1, _, hl3, hl4, hl5, _, _, hl8⟩ := BhopController.handleLanding_fields s1 l1
  have h3' : 0 < s2.lastLandTime := by rw [hl1]; exact h3
  have h4' : t2 - s2.lastLandTime ≤ BhopController.PERFECT_BHOP_WINDOW := by
    rw [hl1]; exact h4
  have hss2 : s2.useStaminaSystem = false := by rw [hl8, hs1]
  obtain ⟨hq2, hc2, hm2, hb2, _, _⟩ :=
    BhopController.handleJump_perfect_branch s2 t2 h3' h4' hss2
  have hmin1 : min BhopController.MAX_CHAIN_COUNT (s.chainCount + 1) = s.chainCount + 1 := by
    unfold BhopController.MAX_CHAIN_COUNT
    omega
  have hcc1 : s1.chainCount = s.chainCount + 1 := by rw [hc1, hmin1]
  have hcc2' : s2.chainCount = s.chainCount + 1 := by rw [hl3, hcc1]
  have hmin2 : min BhopController.MAX_CHAIN_COUNT (s2.chainCount + 1) = s.chainCount + 2 := by
    unfold BhopController.MAX_CHAIN_COUNT
    omega
  refine ⟨hq1, hq2, hcc1, by rw [hc2, hmin2], ?_⟩
  rw [hb1, hb2, hmin1, hmin2, hl4, hm1]
  unfold BhopController.BASE_BOOST BhopController.MAX_BOOST
    BhopController.PERFECT_BOOST_MULTIPLIER BhopController.MAX_CHAIN_COUNT
  set m1 : ℚ := min 100 (s.comboMeter + 15) with hm1def
  set m2 : ℚ := min 100 (m1 + 15) with hm2def
  have hm1lb : (15 : ℚ) ≤ m1 := le_min (by norm_num) (by linarith)
  have hm1ub : m1 ≤ 100 := min_le_left _ _
  have hm12 : m1 ≤ m2 := le_min hm1ub (by linarith)
  have hcast : ((s.chainCount + 2 : ℕ) : ℚ) = ((s.chainCount + 1 : ℕ) : ℚ) + 1 := by
    push_cast
    ring
  have hcnn : (0 : ℚ) ≤ ((s.chainCount + 1 : ℕ) : ℚ) := Nat.cast_nonneg _
  rw [hcast]
  nlinarith [hcnn, hm1lb, hm1ub, hm12]

/-- C1 witness: the amended theorem applied at the concrete state that has
just landed at time 50, with jumps at 150 and 300 and a landing at 200
(both gaps are 100 ms ≤ 150 ms). -/
theorem bhop_perfect_window_quality_and_boost_increase_witness :
    (BhopController.handleJump 150 { BhopController.init with lastLandTime := 50 }).1.lastJumpQuality =
      BhopController.Quality.PERFECT ∧
    (BhopController.handleJump 300 (BhopController.handleLanding 200
        (BhopController.handleJump 150 { BhopController.init with lastLandTime := 50 }).1)).1.lastJumpQuality =
      BhopController.Quality.PERFECT ∧
    (BhopController.handleJump 150 { BhopController.init with lastLandTime := 50 }).1.chainCount =
      BhopController.init.chainCount + 1 ∧
    (BhopController.handleJump 300 (BhopController.handleLanding 200
        (BhopController.handleJump 150 { BhopController.init with lastLandTime := 50 }).1)).1.chainCount =
      BhopController.init.chainCount + 2 ∧
    (BhopController.handleJump 150 { BhopController.init with lastLandTime := 50 }).1.currentBoost <
      (BhopController.handleJump 300 (BhopController.handleLanding 200
        (BhopController.handleJump 150 { BhopController.init with lastLandTime := 50 }).1)).1.currentBoost :=
  bhop_perfect_window_quality_and_boost_increase
    { BhopController.init with lastLandTime := 50 } 150 200 300
    (by norm_num [BhopController.init]) (by norm_num [BhopController.init])
    (by norm_num [BhopController.init]) (by norm_num [BhopController.init])
    (by norm_num [BhopController.init, BhopController.PERFECT_BHOP_WINDOW])
    (by norm_num)
    (by norm_num [BhopController.PERFECT_BHOP_WINDOW])

/-- C2: every handleJump call with Δ = now − lastLandTime > BHOP_WINDOW
takes the chain-break branch, so afterwards chainCount is 0 and the jump
quality is NONE. -/
theorem bhop_window_exceeded_resets_chain (s : BhopController.State) (t : ℚ)
    (h : t - s.lastLandTime > BhopController.BHOP_WINDOW) :
    (BhopController.handleJump t s).1.chainCount = 0 ∧
    (BhopController.handleJump t s).1.lastJumpQuality = BhopController.Quality.NONE := by
  have hcond : ¬ (s.lastLandTime > 0 ∧ t - s.lastLandTime ≤ BhopController.BHOP_WINDOW) := by
    rintro ⟨-, hle⟩
    linarith
  simp only [BhopController.handleJump]
  rw [if_neg]
  · exact ⟨rfl, rfl⟩
  · exact hcond

/-- C2 witness: from the constructor state a jump at time 500 has
Δ = 500 > 450 and indeed resets the chain with quality NONE. -/
theorem bhop_window_exceeded_resets_chain_witness :
    (BhopController.handleJump 500 BhopController.init).1.chainCount = 0 ∧
    (BhopController.handleJump 500 BhopController.init).1.lastJumpQuality =
      BhopController.Quality.NONE :=
  bhop_window_exceeded_resets_chain BhopController.init 500
    (by norm_num [BhopController.init, BhopController.BHOP_WINDOW])

/-- C3: every state reachable from the BhopController constructor state by
any sequence of handleJump, handleLanding, resetBhop and update(delta) with
delta ≥ 0 keeps comboMeter within [0, 100] and currentBoost at or above
BASE_BOOST. -/
theorem bhop_combo_meter_and_boost_floor_invariant (s : BhopController.State)
    (h : BhopController.Reachable s) :
    0 ≤ s.comboMeter ∧ s.comboMeter ≤ 100 ∧
      BhopController.BASE_BOOST ≤ s.currentBoost := by
  induction h with
  | init =>
      refine ⟨le_refl 0, by norm_num [BhopController.init], ?_⟩
      norm_num [BhopController.init]
  | jump s t _ ih => exact BhopController.inv_handleJump t s ih
  | land s t _ ih => exact BhopController.inv_handleLanding t s ih
  | reset s t _ ih => exact BhopController.inv_resetBhop t s ih
  | step s delta now hd _ ih => exact BhopController.inv_update delta now s hd ih

/-- C3 witness: the invariant theorem applied to the constructor state. -/
theorem bhop_combo_meter_and_boost_floor_invariant_witness :
    0 ≤ BhopController.init.comboMeter ∧ BhopController.init.comboMeter ≤ 100 ∧
      BhopController.BASE_BOOST ≤ BhopController.init.currentBoost :=
  bhop_combo_meter_and_boost_floor_invariant BhopController.init
    BhopController.Reachable.init

/-- C10: calling Player.jump while sliding or while not grounded
(canJump false) returns false and leaves the entire player state —
velocity, jump flags, and the whole bhop chain state — unchanged; the
early returns precede every mutation, so the jump impulse and the bhop
evaluation only happen when the player is grounded and not sliding. -/
theorem player_jump_blocked_is_noop (p : Player.State) (now : ℚ)
    (h : p.isSliding = true ∨ p.canJump = false) :
    Player.jump now p = (p, false) := by
  unfold Player.jump
  rcases h with h | h
  · rw [if_pos h]
  · split_ifs with h1
    · rfl
    · rfl

/-- C10 witness: a sliding player state (and one that is airborne) at a
concrete time. -/
theorem player_jump_blocked_is_noop_witness :
    Player.jump 1000 { Player.init with isSliding := true, canJump := true } =
      ({ Player.init with isSliding := true, canJump := true }, false) ∧
    Player.jump 1000 Player.init = (Player.init, false) :=
  ⟨player_jump_blocked_is_noop _ 1000 (Or.inl rfl),
   player_jump_blocked_is_noop _ 1000 (Or.inr rfl)⟩

/-- C4 counterexample: startSlide multiplies currentSpeed by
SLIDE_SPEED_BOOST = 1.3 without any clamp.  From a grounded state with
currentSpeed 40 (within MAX_SPEED = 45, reachable while bhopping since the
boosted target speed is clamped only to 45), starting a slide yields
currentSpeed 52 > MAX_SPEED. -/
theorem player_speed_exceeds_max_after_slide_cex :
    ({ Player.init with canJump := true, currentSpeed := 40 } : Player.State).currentSpeed ≤
      Player.MAX_SPEED ∧
    (Player.startSlide
      ({ Player.init with canJump := true, currentSpeed := 40 } : Player.State)).1.currentSpeed =
      52 ∧
    (52 : ℚ) > Player.MAX_SPEED := by
  refine ⟨by norm_num [Player.init, Player.MAX_SPEED], ?_, by norm_num [Player.MAX_SPEED]⟩
  norm_num [Player.startSlide, Player.init, Player.updateMovementState, Player.RUN_SPEED,
    Player.SLIDE_SPEED_BOOST, Player.SLIDE_DURATION, Player.HEIGHT, Player.ACCELERATION,
    Player.SPRINTING_FOV, BhopController.init]

set_option maxHeartbeats 2000000 in
/-- C4 (amended): the bhop-boosted target speed is clamped so that
updateMovementState always emits targetSpeed ≤ MAX_SPEED (when not
sliding; sliding leaves targetSpeed unchanged), and updateSpeed never
raises currentSpeed above MAX_SPEED; but startSlide multiplies
currentSpeed by SLIDE_SPEED_BOOST = 1.3 with no clamp, so after a slide
start the horizontal speed is only bounded by SLIDE_SPEED_BOOST ×
MAX_SPEED rather than MAX_SPEED. -/
theorem player_speed_cap_except_slide_boost :
    (∀ p : Player.State, p.isSliding = false →
      (Player.updateMovementState p).targetSpeed ≤ Player.MAX_SPEED) ∧
    (∀ (p : Player.State) (delta : ℚ), 0 ≤ delta →
      p.currentSpeed ≤ Player.MAX_SPEED → p.targetSpeed ≤ Player.MAX_SPEED →
      (Player.updateSpeed delta p).currentSpeed ≤ Player.MAX_SPEED) ∧
    (∀ p : Player.State, p.currentSpeed ≤ Player.MAX_SPEED →
      (Player.startSlide p).1.currentSpeed ≤ Player.SLIDE_SPEED_BOOST * Player.MAX_SPEED) := by
  refine ⟨fun p hs => ?_, fun p delta hd h1 h2 => ?_, fun p h1 => ?_⟩
  · unfold Player.updateMovementState Player.MAX_SPEED Player.SPRINT_SPEED Player.WALK_SPEED
      Player.RUN_SPEED
    rw [hs]
    dsimp only
    split_ifs <;> (try dsimp only) <;>
      first
        | contradiction
        | exact min_le_right _ _
        | linarith
  · unfold Player.MAX_SPEED at h1 h2
    unfold Player.updateSpeed Player.MAX_SPEED Player.DECELERATION Player.AIR_DECELERATION
    dsimp only
    split_ifs <;> (try dsimp only) <;>
      first
        | contradiction
        | exact h1
        | (refine le_trans (min_le_left _ _) ?_; linarith)
        | (apply max_le <;> linarith)
  · unfold Player.MAX_SPEED at h1
    unfold Player.startSlide Player.SLIDE_SPEED_BOOST Player.MAX_SPEED Player.RUN_SPEED
      Player.updateMovementState
    dsimp only
    split_ifs <;> (try dsimp only) <;>
      first
        | contradiction
        | linarith

/-- C4 witness: the amended bound theorem applied at the initial player
state with a unit time step. -/
theorem player_speed_cap_except_slide_boost_witness :
    (Player.updateMovementState Player.init).targetSpeed ≤ Player.MAX_SPEED ∧
    (Player.updateSpeed 1 Player.init).currentSpeed ≤ Player.MAX_SPEED ∧
    (Player.startSlide Player.init).1.currentSpeed ≤
      Player.SLIDE_SPEED_BOOST * Player.MAX_SPEED :=
  ⟨player_speed_cap_except_slide_boost.1 Player.init rfl,
   player_speed_cap_except_slide_boost.2.1 Player.init 1 (by norm_num)
     (by norm_num [Player.init, Player.MAX_SPEED])
     (by norm_num [Player.init, Player.MAX_SPEED, Player.RUN_SPEED]),
   player_speed_cap_except_slide_boost.2.2 Player.init
     (by norm_num [Player.init, Player.MAX_SPEED])⟩

/-- C8: whenever the full displacement was blocked but the X-only (or
Z-only) sub-displacement registers no collision and has a nonzero extent,
handleSlideAlongWalls moves the position strictly toward the target along
that axis (by the interpolation factor 1/4); and the player is never left
fully frozen while at least one axis-aligned sub-displacement with nonzero
extent is clear.  The collide oracle stands for castCollisionRays. -/
theorem player_wall_slide_advances_clear_axes
    (collide : V3 → V3 → ℚ → Bool) (currentPos targetPos moveDir : V3) (velX velZ : ℚ) :
    (collide currentPos ⟨Player.axisNorm (targetPos.x - currentPos.x), 0, 0⟩
        |targetPos.x - currentPos.x| = false → targetPos.x ≠ currentPos.x →
      (Player.handleSlideAlongWalls collide currentPos targetPos moveDir velX velZ).1.x ≠
          currentPos.x ∧
        |(Player.handleSlideAlongWalls collide currentPos targetPos moveDir velX velZ).1.x -
            targetPos.x| < |currentPos.x - targetPos.x|) ∧
    (collide currentPos ⟨0, 0, Player.axisNorm (targetPos.z - currentPos.z)⟩
        |targetPos.z - currentPos.z| = false → targetPos.z ≠ currentPos.z →
      (Player.handleSlideAlongWalls collide currentPos targetPos moveDir velX velZ).1.z ≠
          currentPos.z ∧
        |(Player.handleSlideAlongWalls collide currentPos targetPos moveDir velX velZ).1.z -
            targetPos.z| < |currentPos.z - targetPos.z|) ∧
    ((collide currentPos ⟨Player.axisNorm (targetPos.x - currentPos.x), 0, 0⟩
          |targetPos.x - currentPos.x| = false ∧ targetPos.x ≠ currentPos.x) ∨
     (collide currentPos ⟨0, 0, Player.axisNorm (targetPos.z - currentPos.z)⟩
          |targetPos.z - currentPos.z| = false ∧ targetPos.z ≠ currentPos.z) →
      (Player.handleSlideAlongWalls collide currentPos targetPos moveDir velX velZ).1 ≠
        currentPos) := by
  have hxval : ∀ hx : collide currentPos ⟨Player.axisNorm (targetPos.x - currentPos.x), 0, 0⟩
      |targetPos.x - currentPos.x| = false,
      (Player.handleSlideAlongWalls collide currentPos targetPos moveDir velX velZ).1.x =
        currentPos.x + (targetPos.x - currentPos.x) * Player.interpFactor := by
    intro hx
    simp only [Player.handleSlideAlongWalls, hx]
    simp only [if_true]
    try ring
  have hzval : ∀ hz : collide currentPos ⟨0, 0, Player.axisNorm (targetPos.z - currentPos.z)⟩
      |targetPos.z - currentPos.z| = false,
      (Player.handleSlideAlongWalls collide currentPos targetPos moveDir velX velZ).1.z =
        currentPos.z + (targetPos.z - currentPos.z) * Player.interpFactor := by
    intro hz
    simp only [Player.handleSlideAlongWalls, hz]
    simp only [if_true]
    try ring
  have key : ∀ c t : ℚ, t ≠ c →
      (c + (t - c) * Player.interpFactor ≠ c ∧ |c + (t - c) * Player.interpFactor - t| < |c - t|) := by
    intro c t ht
    have hct : c - t ≠ 0 := sub_ne_zero.mpr (fun hc => ht hc.symm)
    have habs : (0:ℚ) < |c - t| := abs_pos.mpr hct
    constructor
    · intro hc
      apply ht
      have : (t - c) * Player.interpFactor = 0 := by linarith
      have h4 : (t - c) = 0 := by
        unfold Player.interpFactor at this
        linarith
      linarith
    · have heq : c + (t - c) * Player.interpFactor - t = (c - t) * (3/4) := by
        unfold Player.interpFactor
        ring
      rw [heq, abs_mul]
      have h34 : |(3:ℚ)/4| = 3/4 := by norm_num
      rw [h34]
      linarith
  refine ⟨fun hx hne => ?_, fun hz hne => ?_, fun h => ?_⟩
  · rw [hxval hx]
    exact key currentPos.x targetPos.x hne
  · rw [hzval hz]
    exact key currentPos.z targetPos.z hne
  · rcases h with ⟨hx, hne⟩ | ⟨hz, hne⟩
    · intro hc
      have := congrArg V3.x hc
      rw [hxval hx] at this
      exact (key currentPos.x targetPos.x hne).1 this
    · intro hc
      have := congrArg V3.z hc
      rw [hzval hz] at this
      exact (key currentPos.z targetPos.z hne).1 this

/-- C8 witness: with an oracle that reports both probes clear, the player
at x = z = 0 aiming at (4, 0, 4) advances to (1, 0, 1). -/
theorem player_wall_slide_advances_clear_axes_witness :
    ((fun _ _ _ => false : V3 → V3 → ℚ → Bool) ⟨0,0,0⟩
        ⟨Player.axisNorm ((4:ℚ) - 0), 0, 0⟩ |(4:ℚ) - 0| = false ∧ (4:ℚ) ≠ 0) ∧
    (Player.handleSlideAlongWalls (fun _ _ _ => false) ⟨0,0,0⟩ ⟨4,0,4⟩ ⟨1,0,0⟩ 0 0).1 ≠
      (⟨0,0,0⟩ : V3) := by
  refine ⟨⟨rfl, by norm_num⟩, ?_⟩
  exact (player_wall_slide_advances_clear_axes (fun _ _ _ => false)
      ⟨0,0,0⟩ ⟨4,0,4⟩ ⟨1,0,0⟩ 0 0).2.2 (Or.inl ⟨rfl, by norm_num⟩)

/-- C6 counterexample: the chain-timeout reset is not a deadline checked
by the per-step update call.  In a state whose scheduled reset time (1550,
as set by handleLanding(1000) = 1000 + BHOP_WINDOW + 100) has long passed,
a step call at now = 2000 observes the elapsed deadline yet neither resets
the chain nor clears the timer: the reset is performed only by the
asynchronously scheduled setTimeout callback (resetBhop). -/
theorem bhop_reset_deadline_not_checked_by_step_cex :
    (2000 : ℚ) > 1550 ∧
    (BhopController.update (16/1000) 2000
      { lastJumpTime := 900, lastLandTime := 1000, isBhopping := true, chainCount := 3,
        perfectJumps := 1, comboMeter := 35, currentBoost := 8/5, lastChainBrokenTime := 0,
        resetTimer := some 1550, lastJumpQuality := BhopController.Quality.GOOD,
        bhopStats := ⟨3, 3, 1, 3, 100, 300⟩, useStaminaSystem := false,
        stamina := 100 }).chainCount = 3 ∧
    (BhopController.update (16/1000) 2000
      { lastJumpTime := 900, lastLandTime := 1000, isBhopping := true, chainCount := 3,
        perfectJumps := 1, comboMeter := 35, currentBoost := 8/5, lastChainBrokenTime := 0,
        resetTimer := some 1550, lastJumpQuality := BhopController.Quality.GOOD,
        bhopStats := ⟨3, 3, 1, 3, 100, 300⟩, useStaminaSystem := false,
        stamina := 100 }).isBhopping = true ∧
    (BhopController.update (16/1000) 2000
      { lastJumpTime := 900, lastLandTime := 1000, isBhopping := true, chainCount := 3,
        perfectJumps := 1, comboMeter := 35, currentBoost := 8/5, lastChainBrokenTime := 0,
        resetTimer := some 1550, lastJumpQuality := BhopController.Quality.GOOD,
        bhopStats := ⟨3, 3, 1, 3, 100, 300⟩, useStaminaSystem := false,
        stamina := 100 }).resetTimer = some 1550 :=
  ⟨by norm_num, rfl, rfl, rfl⟩

/-- C6 (amended): the chain-timeout reset is realized as an asynchronously
scheduled timer, not as a deadline checked by the per-step update call:
handleLanding records the landing time and schedules the reset callback
for landTime + BHOP_WINDOW + 100 while mutating nothing else, the per-step
update call never resets the chain and never touches the scheduled timer
(even after the deadline passes), and the reset to the neutral state is
performed by the resetBhop callback when the timer fires. -/
theorem bhop_reset_is_async_timer_not_step_deadline :
    (∀ (s : BhopController.State) (l : ℚ),
      (BhopController.handleLanding l s).lastLandTime = l ∧
      (BhopController.handleLanding l s).resetTimer =
        some (l + BhopController.BHOP_WINDOW + 100) ∧
      (BhopController.handleLanding l s).chainCount = s.chainCount ∧
      (BhopController.handleLanding l s).comboMeter = s.comboMeter ∧
      (BhopController.handleLanding l s).currentBoost = s.currentBoost ∧
      (BhopController.handleLanding l s).isBhopping = s.isBhopping ∧
      (BhopController.handleLanding l s).lastJumpQuality = s.lastJumpQuality) ∧
    (∀ (s : BhopController.State) (delta now : ℚ),
      (BhopController.update delta now s).chainCount = s.chainCount ∧
      (BhopController.update delta now s).isBhopping = s.isBhopping ∧
      (BhopController.update delta now s).resetTimer = s.resetTimer ∧
      (BhopController.update delta now s).lastJumpQuality = s.lastJumpQuality) ∧
    (∀ (s : BhopController.State) (now : ℚ),
      (BhopController.resetBhop now s).chainCount = 0 ∧
      (BhopController.resetBhop now s).isBhopping = false) := by
  refine ⟨fun s l => ⟨rfl, rfl, rfl, rfl, rfl, rfl, rfl⟩,
          fun s delta now => ⟨rfl, rfl, rfl, rfl⟩,
          fun s now => ?_⟩
  unfold BhopController.resetBhop
  dsimp only
  split_ifs <;> exact ⟨rfl, rfl⟩

/-- C7 counterexample: a player-hit event is not rate-limited.  At
difficulty level 2 (inside the legal band [1, maxDifficultyLevel]),
handlePlayerDamage drops the level to 1.8 in a single call — a change of
0.2, far above the fixed per-step rate
difficultyIncreaseRate * (1/60) = 1/1200. -/
theorem difficulty_hit_drop_exceeds_step_rate_cex :
    (EntityManager.handlePlayerDamage
      { difficultyLevel := 2, playerBhopSkill := 1/2, playerDeaths := 0,
        difficultyScalingEnabled := true }).difficultyLevel = 9/5 ∧
    (2 : ℚ) - 9/5 > EntityManager.difficultyIncreaseRate * (1/60) ∧
    (1 : ℚ) ≤ 2 ∧ (2 : ℚ) ≤ EntityManager.maxDifficultyLevel := by
  refine ⟨?_, by norm_num [EntityManager.difficultyIncreaseRate], by norm_num,
    by norm_num [EntityManager.maxDifficultyLevel]⟩
  unfold EntityManager.handlePlayerDamage
  dsimp only
  rw [show (2:ℚ) * (9/10) = 9/5 by norm_num,
    max_eq_right (by norm_num : (1:ℚ) ≤ 9/5)]

/-- C7 (amended): the difficulty level always stays in
[1, maxDifficultyLevel]; updateDifficulty moves it only upward, by at most
difficultyIncreaseRate * (1/60) per call (it never moves down toward a
lower target); a player-hit event instead applies a multiplicative 10
percent cut, difficultyLevel := max 1 (0.9 * difficultyLevel), which is a
step change not bounded by the per-step rate, clamped at the floor 1. -/
theorem difficulty_bounds_and_rate (stats : BhopController.Stats)
    (d : EntityManager.DiffState)
    (h1 : 1 ≤ d.difficultyLevel) (h2 : d.difficultyLevel ≤ EntityManager.maxDifficultyLevel) :
    1 ≤ (EntityManager.updateDifficulty stats d).difficultyLevel ∧
    (EntityManager.updateDifficulty stats d).difficultyLevel ≤
      EntityManager.maxDifficultyLevel ∧
    d.difficultyLevel ≤ (EntityManager.updateDifficulty stats d).difficultyLevel ∧
    (EntityManager.updateDifficulty stats d).difficultyLevel ≤
      d.difficultyLevel + EntityManager.difficultyIncreaseRate * (1/60) ∧
    (EntityManager.handlePlayerDamage d).difficultyLevel =
      max 1 (d.difficultyLevel * (9/10)) ∧
    1 ≤ (EntityManager.handlePlayerDamage d).difficultyLevel ∧
    (EntityManager.handlePlayerDamage d).difficultyLevel ≤
      EntityManager.maxDifficultyLevel := by
  unfold EntityManager.updateDifficulty EntityManager.handlePlayerDamage
    EntityManager.difficultyIncreaseRate
  unfold EntityManager.maxDifficultyLevel at h2 ⊢
  dsimp only
  split_ifs <;> (try dsimp only) <;>
    refine ⟨?_, ?_, ?_, ?_, rfl, le_max_left _ _, ?_⟩ <;>
    first
      | exact min_le_left _ _
      | exact min_le_right _ _
      | (apply le_min <;> linarith)
      | (apply max_le <;> linarith)
      | linarith

/-- C7 witness: the bounds-and-rate theorem applied at the initial
difficulty state with the initial bhop statistics. -/
theorem difficulty_bounds_and_rate_witness :
    1 ≤ (EntityManager.updateDifficulty BhopController.init.bhopStats
          EntityManager.diffInit).difficultyLevel ∧
    (EntityManager.updateDifficulty BhopController.init.bhopStats
        EntityManager.diffInit).difficultyLevel ≤ EntityManager.maxDifficultyLevel ∧
    EntityManager.diffInit.difficultyLevel ≤
      (EntityManager.updateDifficulty BhopController.init.bhopStats
        EntityManager.diffInit).difficultyLevel ∧
    (EntityManager.updateDifficulty BhopController.init.bhopStats
        EntityManager.diffInit).difficultyLevel ≤
      EntityManager.diffInit.difficultyLevel +
        EntityManager.difficultyIncreaseRate * (1/60) ∧
    (EntityManager.handlePlayerDamage EntityManager.diffInit).difficultyLevel =
      max 1 (EntityManager.diffInit.difficultyLevel * (9/10)) ∧
    1 ≤ (EntityManager.handlePlayerDamage EntityManager.diffInit).difficultyLevel ∧
    (EntityManager.handlePlayerDamage EntityManager.diffInit).difficultyLevel ≤
      EntityManager.maxDifficultyLevel :=
  difficulty_bounds_and_rate BhopController.init.bhopStats EntityManager.diffInit
    (by norm_num [EntityManager.diffInit])
    (by norm_num [EntityManager.diffInit, EntityManager.maxDifficultyLevel])

/-- C9: an enemy's effective speed is its base speed times a scale factor
(speedMultiplier from createEnemy times the player-speed modifier).  The
result is monotonically non-decreasing in the difficulty level and,
independently, in the player's current locomotion speed; the player-speed
modifier is applied on every update call, hence in particular while the
player is actively chaining. -/
theorem enemy_speed_scales_with_difficulty_and_player_speed
    (t d1 d2 m p p1 p2 : ℚ)
    (ht : 0 ≤ t) (hd : d1 ≤ d2) (hp0 : 0 ≤ p) (hm : 0 ≤ m) (hp : p1 ≤ p2) :
    Enemy.effectiveSpeed (EntityManager.scaledSpeedMultiplier t d1) p ≤
      Enemy.effectiveSpeed (EntityManager.scaledSpeedMultiplier t d2) p ∧
    Enemy.effectiveSpeed m p1 ≤ Enemy.effectiveSpeed m p2 ∧
    Enemy.effectiveSpeed (EntityManager.scaledSpeedMultiplier t d1) p =
      Enemy.BASE_SPEED * (t * d1) * (1 + min p 30 / 30 * (1/2)) := by
  have hmod : (0:ℚ) ≤ 1 + min p 30 / 30 * (1/2) := by
    have : (0:ℚ) ≤ min p 30 := le_min hp0 (by norm_num)
    linarith
  have hmin : min p1 30 ≤ min p2 30 := min_le_min hp le_rfl
  have hmin1 : min p1 30 ≤ 30 := min_le_right _ _
  refine ⟨?_, ?_, rfl⟩
  · unfold Enemy.effectiveSpeed Enemy.speedModifier Enemy.BASE_SPEED
      EntityManager.scaledSpeedMultiplier
    nlinarith [mul_nonneg (mul_nonneg ht (sub_nonneg.mpr hd)) hmod]
  · unfold Enemy.effectiveSpeed Enemy.speedModifier Enemy.BASE_SPEED
    nlinarith [mul_nonneg hm (sub_nonneg.mpr hmin)]

/-- C9 witness: concrete difficulty levels 1 ≤ 2 and player speeds
0 ≤ 10 with type multiplier 1. -/
theorem enemy_speed_scales_with_difficulty_and_player_speed_witness :
    Enemy.effectiveSpeed (EntityManager.scaledSpeedMultiplier 1 1) 10 ≤
      Enemy.effectiveSpeed (EntityManager.scaledSpeedMultiplier 1 2) 10 ∧
    Enemy.effectiveSpeed 1 0 ≤ Enemy.effectiveSpeed 1 10 ∧
    Enemy.effectiveSpeed (EntityManager.scaledSpeedMultiplier 1 1) 10 =
      Enemy.BASE_SPEED * (1 * 1) * (1 + min 10 30 / 30 * (1/2)) :=
  enemy_speed_scales_with_difficulty_and_player_speed 1 1 2 1 10 0 10
    (by norm_num) (by norm_num) (by norm_num) (by norm_num) (by norm_num)

/-- C5 counterexample: findPath does not return an empty path when the
goal lies on a blocked (obstacle-occupied) position.  With a single box
obstacle spanning [-10, 10]³ around the origin and both endpoints inside
it, the interior ray sees only culled back faces, so the direct-path test
succeeds and findPath returns the single waypoint [goal] — a non-empty
path ending inside the obstacle.  (No grid-bounds or blocked-cell check
exists anywhere in findPath.) -/
theorem findPath_goal_in_obstacle_nonempty_cex :
    PathfindingService.containsPoint
      ⟨⟨0, 0, 0⟩, ⟨10, 10, 10⟩⟩ ⟨1, 1, 0⟩ = true ∧
    PathfindingService.findPath (fun _ _ => ⟨0, 0, 0⟩)
      [⟨⟨0, 0, 0⟩, ⟨10, 10, 10⟩⟩] 1 ⟨-1, 1, 0⟩ ⟨1, 1, 0⟩ = [⟨1, 1, 0⟩] ∧
    ([(⟨1, 1, 0⟩ : V3)] : List V3) ≠ [] := by
  have hc : PathfindingService.containsPoint
      ⟨⟨0, 0, 0⟩, ⟨10, 10, 10⟩⟩ ⟨-1, 1, 0⟩ = true := by
    norm_num [PathfindingService.containsPoint]
  have hseg : PathfindingService.segHit ⟨-1, 1, 0⟩ ⟨1, 1, 0⟩
      ⟨⟨0, 0, 0⟩, ⟨10, 10, 10⟩⟩ = none := by
    unfold PathfindingService.segHit
    rw [if_pos hc]
  have hnear : PathfindingService.nearestHit
      [⟨⟨0, 0, 0⟩, ⟨10, 10, 10⟩⟩] ⟨-1, 1, 0⟩ ⟨1, 1, 0⟩ = none := by
    simp [PathfindingService.nearestHit, hseg]
  have hdir : PathfindingService.hasDirectPath
      [⟨⟨0, 0, 0⟩, ⟨10, 10, 10⟩⟩] ⟨-1, 1, 0⟩ ⟨1, 1, 0⟩ = true := by
    simp [PathfindingService.hasDirectPath, hnear]
  refine ⟨by norm_num [PathfindingService.containsPoint], ?_, by simp⟩
  show PathfindingService.findPath (fun _ _ => ⟨0, 0, 0⟩)
      [⟨⟨0, 0, 0⟩, ⟨10, 10, 10⟩⟩] (0 + 1) ⟨-1, 1, 0⟩ ⟨1, 1, 0⟩ = [⟨1, 1, 0⟩]
  unfold PathfindingService.findPath
  rw [if_pos hdir]

/-- C5 (amended): findPath never checks grid bounds or cell occupancy and
never signals failure with an empty sequence: whenever the straight
start → goal raycast records no obstacle hit — including when start and
goal lie inside an obstacle, or outside the grid extent — it returns the
single waypoint [goal]; when a hit occurs it prepends a detour waypoint
and recurses, possibly without bound. -/
theorem findPath_direct_returns_goal (unit : V3 → V3 → V3)
    (obs : List PathfindingService.Obstacle) (s e : V3) (fuel : ℕ)
    (h : PathfindingService.hasDirectPath obs s e = true) :
    PathfindingService.findPath unit obs (fuel + 1) s e = [e] := by
  unfold PathfindingService.findPath
  rw [if_pos h]

/-- C5 witness: the direct-path theorem applied in an empty scene at
points far outside the 200-unit grid extent. -/
theorem findPath_direct_returns_goal_witness :
    PathfindingService.hasDirectPath [] ⟨500, 1, 500⟩ ⟨600, 1, 600⟩ = true ∧
    PathfindingService.findPath (fun _ _ => ⟨0, 0, 0⟩) [] (0 + 1) ⟨500, 1, 500⟩ ⟨600, 1, 600⟩ =
      [⟨600, 1, 600⟩] :=
  ⟨rfl, findPath_direct_returns_goal (fun _ _ => ⟨0, 0, 0⟩) [] ⟨500, 1, 500⟩ ⟨600, 1, 600⟩ 0 rfl⟩
